import Mathlib

/-! Shallow embedding of `src/tracker.py`, a basic 2D motion-capture script:
a module-level calibration dictionary, the pixel-to-ground-truth function
`calibrateXY`, the per-frame box-center / position / pairwise-distance
computation of the video loop, the calibrate branch behind key `c`, and the
session loop's state machine. Modelling conventions: Python floats are
modelled as exact rationals (`Rat`); pixel coordinates after the source's
`int(v)` conversion are `Int`; Python `//` on integers (floor division) is
`Int.fdiv`; a `float(...)` parse of operator input is an `Option Rat`
(`none` for a `ValueError`); Python division that may raise
`ZeroDivisionError` is `pydiv`; an uncaught exception that terminates the
whole session is the `crash` outcome. -/

namespace MotionCapture

/-- A 2D point with rational coordinates. -/
structure Point where
  x : Rat
  y : Rat
deriving DecidableEq

/-- The module-level mutable dictionary `calibrationRef` (tracker.py lines
51-53): a reference point pair (`pixels`, `truth`) and a per-axis
pixels-to-truth factor, called the pixels-to-truth ratio in the source and
`scale` here. -/
structure CalibrationRef where
  refPixels : Point
  refTruth : Point
  scale : Point
deriving DecidableEq

/-- The default calibration assumed at session start: 1:1 mapping
(tracker.py lines 50-53). -/
def defaultCalibrationRef : CalibrationRef :=
  ⟨⟨0, 0⟩, ⟨0, 0⟩, ⟨1, 1⟩⟩

/-- `calibrateXY(pt, ref)` (tracker.py lines 55-62). The body reads the
module-level `calibrationRef`, passed here explicitly as `cal`; the second
argument `ref` is accepted but never read, exactly as in the source. -/
def calibrateXY (cal : CalibrationRef) (pt : Point) (ref : CalibrationRef) : Point :=
  ⟨(pt.x - cal.refPixels.x) * cal.scale.x + cal.refTruth.x,
   (pt.y - cal.refPixels.y) * cal.scale.y + cal.refTruth.y⟩

/-- A bounding box `(x, y, w, h)` in pixel coordinates, as produced by the
source's `(x, y, w, h) = [int(v) for v in box]` conversion. -/
abbrev Box := Int × Int × Int × Int

/-- Python division between rationals: `none` models the `ZeroDivisionError`
raised on a zero divisor. -/
def pydiv (a b : Rat) : Option Rat :=
  if b = 0 then none else some (a / b)

/-- Outcome of one calibrate command: `ok` with the new calibration state, or
`crash` when an uncaught exception ends the whole session, carrying the
calibration state at the moment the exception was raised. -/
inductive CmdOutcome where
  | ok : CalibrationRef → CmdOutcome
  | crash : CalibrationRef → CmdOutcome
deriving DecidableEq

/-- The calibrate branch behind key `c` (tracker.py lines 130-175): the
operator draws `calBox = (x, y, w, h)`, then four scalar values are read by
`float(input(...))` in the order x0, y0, x1, y1. After x0 and y0 both parse,
the reference point is overwritten (lines 153-154); after x1 and y1 both
parse, the per-axis factor is overwritten with
`((x1 - x0) / w, (y1 - y0) / h)` (lines 172-173). A failed parse raises an
uncaught `ValueError`, and a zero `w` or `h` an uncaught
`ZeroDivisionError`; either crashes the session with the state mutated so
far. -/
def calibrateCommand (cal : CalibrationRef) (calBox : Box)
    (x0 y0 x1 y1 : Option Rat) : CmdOutcome :=
  match x0 with
  | none => CmdOutcome.crash cal
  | some a =>
    match y0 with
    | none => CmdOutcome.crash cal
    | some b =>
      let cal2 : CalibrationRef :=
        ⟨⟨(calBox.1 : Rat), (calBox.2.1 : Rat)⟩, ⟨a, b⟩, cal.scale⟩
      match x1 with
      | none => CmdOutcome.crash cal2
      | some c =>
        match y1 with
        | none => CmdOutcome.crash cal2
        | some d =>
          match pydiv (c - a) (calBox.2.2.1 : Rat), pydiv (d - b) (calBox.2.2.2 : Rat) with
          | some rx, some ry => CmdOutcome.ok ⟨cal2.refPixels, cal2.refTruth, ⟨rx, ry⟩⟩
          | _, _ => CmdOutcome.crash cal2

/-- The center `(x + w//2, y + h//2)` of a box (tracker.py line 87); Python
`//` on integers is floor division, `Int.fdiv`. -/
def boxCenter (b : Box) : Int × Int :=
  (b.1 + Int.fdiv b.2.2.1 2, b.2.1 + Int.fdiv b.2.2.2 2)

/-- The calibrated positions accumulated in `realPoints` over the box loop
(tracker.py lines 80-90), in the order the boxes were returned; line 89
passes the module-level dictionary itself as the unused `ref` argument. -/
def realPoints (cal : CalibrationRef) (boxes : List Box) : List Point :=
  boxes.map fun b =>
    calibrateXY cal ⟨((boxCenter b).1 : Rat), ((boxCenter b).2 : Rat)⟩ cal

/-- The per-frame position report: one `(index, x, y)` entry per box, in box
order (tracker.py line 91 prints index `i` with `realXY`). -/
def positions (cal : CalibrationRef) (boxes : List Box) : List (Nat × Rat × Rat) :=
  (realPoints cal boxes).enum.map fun e => (e.1, e.2.x, e.2.y)

/-- The distance lines printed per frame (tracker.py lines 95-97): the outer
loop visits box index `i` in ascending order; at that point `realPoints`
holds the first `i + 1` positions, so the inner loop prints, for each
`j < i` in ascending order, the line `Distance j to i` carrying
`realXY - realPoints[j]`, i.e. `(pts_i.x - pts_j.x, pts_i.y - pts_j.y)`
where `pts_i` is the position of the larger index `i`. -/
def distances (cal : CalibrationRef) (boxes : List Box) :
    List (Nat × Nat × Rat × Rat) :=
  (List.range (realPoints cal boxes).length).flatMap fun i =>
    (List.range i).map fun j =>
      (j, i,
        ((realPoints cal boxes).getD i ⟨0, 0⟩).x - ((realPoints cal boxes).getD j ⟨0, 0⟩).x,
        ((realPoints cal boxes).getD i ⟨0, 0⟩).y - ((realPoints cal boxes).getD j ⟨0, 0⟩).y)

/-- The `(smaller, larger)` index labels of the printed distance lines, in
print order. -/
def pairLabels (cal : CalibrationRef) (boxes : List Box) : List (Nat × Nat) :=
  (distances cal boxes).map fun e => (e.1, e.2.1)

/-- The per-frame report: calibrated positions, pairwise distance lines, and
the multi-tracker success flag (tracker.py lines 77-108). -/
structure FrameReport where
  positions : List (Nat × Rat × Rat)
  distances : List (Nat × Nat × Rat × Rat)
  trackingSucceeded : Bool
deriving DecidableEq

/-- The report a tracking frame produces from the current calibration state
and the multi-tracker's output. -/
def mkReport (cal : CalibrationRef) (success : Bool) (boxes : List Box) :
    FrameReport :=
  ⟨positions cal boxes, distances cal boxes, success⟩

/-- Session-loop state: `initBox` (tracker.py line 39, `none` until the
first region is added), the number of trackers added to the multi-tracker
object, and the module-level calibration dictionary. -/
structure SessionState where
  initBox : Option Box
  numTracks : Nat
  cal : CalibrationRef
deriving DecidableEq

/-- The state at session start (tracker.py lines 34-53): no region, no
trackers, identity calibration. -/
def initialSession : SessionState := ⟨none, 0, defaultCalibrationRef⟩

/-- The key observed by one loop iteration (tracker.py lines 117-179): `s`
carries the operator's selected region, `c` carries the calibration
rectangle and the four parse results of the prompted scalars, `q` quits,
anything else is ignored. -/
inductive Key where
  | s : Box → Key
  | c : Box → Option Rat → Option Rat → Option Rat → Option Rat → Key
  | q : Key
  | other : Key
deriving DecidableEq

/-- Environment inputs to one loop iteration: the multi-tracker's success
flag and boxes for the current frame, and the key pressed. -/
structure Event where
  success : Bool
  boxes : List Box
  key : Key
deriving DecidableEq

/-- One iteration of the video loop (tracker.py lines 65-179): if `initBox`
is set the frame produces a report (lines 75-113); then the key is handled
(`s` adds a region and a tracker, `c` runs the calibrate command, `q`
breaks). The first component is the state the loop continues with, `none`
when the session ends: quit, or an uncaught exception in the calibrate
branch. -/
def videoIteration (st : SessionState) (e : Event) :
    Option SessionState × Option FrameReport :=
  (match e.key with
   | Key.s roi => some ⟨some roi, st.numTracks + 1, st.cal⟩
   | Key.c cb x0 y0 x1 y1 =>
     match calibrateCommand st.cal cb x0 y0 x1 y1 with
     | CmdOutcome.ok cal2 => some ⟨st.initBox, st.numTracks, cal2⟩
     | CmdOutcome.crash _ => none
   | Key.q => none
   | Key.other => some st,
   if st.initBox.isSome then some (mkReport st.cal e.success e.boxes) else none)

/-- Runs the session loop over a list of per-frame events, returning the
state after them, or `none` if the loop ended during the trace. -/
def runSession : SessionState → List Event → Option SessionState
  | st, [] => some st
  | st, e :: es =>
    match (videoIteration st e).1 with
    | none => none
    | some st2 => runSession st2 es

/-- Claim C2: `calibrateXY` is the per-axis affine map
`truth = (pixel - refPixel) * scale + refTruth`, and its x output depends
only on the x components of the point, the reference pixel, the reference
truth and the scale (and not on the unused `ref` argument); as a total Lean
function it has no side effects and no failure modes. -/
theorem calibrateXY_affine_separable
    (cal cal2 : CalibrationRef) (pt pt2 : Point) (ref ref2 : CalibrationRef)
    (hpt : pt.x = pt2.x) (hpx : cal.refPixels.x = cal2.refPixels.x)
    (htr : cal.refTruth.x = cal2.refTruth.x) (hsc : cal.scale.x = cal2.scale.x) :
    calibrateXY cal pt ref
      = ⟨(pt.x - cal.refPixels.x) * cal.scale.x + cal.refTruth.x,
         (pt.y - cal.refPixels.y) * cal.scale.y + cal.refTruth.y⟩
    ∧ (calibrateXY cal pt ref).x = (calibrateXY cal2 pt2 ref2).x :=
  ⟨rfl, by simp [calibrateXY, hpt, hpx, htr, hsc]⟩

/-- Witness for C2: the affine formula and x-separability at concrete inputs. -/
theorem calibrateXY_affine_separable_witness :
    calibrateXY ⟨⟨1, 2⟩, ⟨3, 4⟩, ⟨5, 6⟩⟩ ⟨7, 8⟩ defaultCalibrationRef
      = ⟨(7 - 1) * 5 + 3, (8 - 2) * 6 + 4⟩
    ∧ (calibrateXY ⟨⟨1, 2⟩, ⟨3, 4⟩, ⟨5, 6⟩⟩ ⟨7, 8⟩ defaultCalibrationRef).x
      = (calibrateXY ⟨⟨1, 9⟩, ⟨3, 9⟩, ⟨5, 9⟩⟩ ⟨7, 9⟩ defaultCalibrationRef).x :=
  calibrateXY_affine_separable ⟨⟨1, 2⟩, ⟨3, 4⟩, ⟨5, 6⟩⟩ ⟨⟨1, 9⟩, ⟨3, 9⟩, ⟨5, 9⟩⟩
    ⟨7, 8⟩ ⟨7, 9⟩ defaultCalibrationRef defaultCalibrationRef rfl rfl rfl rfl

/-- Claim C3: a calibrate command whose four scalar inputs all parse and whose
rectangle has nonzero width and height sets `refPixels` to the rectangle's
first corner, `refTruth` to that corner's supplied ground truth, and the
per-axis factor to `((x1 - x0) / w, (y1 - y0) / h)`; concretely, corners
`A = (0,0)`, `B = (100,50)` (so `w = 100`, `h = 50`) with ground truths
`(0,0)` and `(10,5)` yield scale `(1/10, 1/10)`, and then applying the
transform to `(50, 25)` gives `(5, 5/2)`. -/
theorem calibrateCommand_configure
    (cal : CalibrationRef) (x y w h : Int) (a b c d : Rat)
    (hw : w ≠ 0) (hh : h ≠ 0) :
    calibrateCommand cal (x, y, w, h) (some a) (some b) (some c) (some d)
      = CmdOutcome.ok ⟨⟨(x : Rat), (y : Rat)⟩, ⟨a, b⟩,
          ⟨(c - a) / (w : Rat), (d - b) / (h : Rat)⟩⟩
    ∧ calibrateCommand defaultCalibrationRef (0, 0, 100, 50)
        (some 0) (some 0) (some 10) (some 5)
      = CmdOutcome.ok ⟨⟨0, 0⟩, ⟨0, 0⟩, ⟨1/10, 1/10⟩⟩
    ∧ calibrateXY ⟨⟨0, 0⟩, ⟨0, 0⟩, ⟨1/10, 1/10⟩⟩ ⟨50, 25⟩ defaultCalibrationRef
      = ⟨5, 5/2⟩ := by
  refine ⟨?_, by norm_num [calibrateCommand, pydiv, defaultCalibrationRef],
    by norm_num [calibrateXY]⟩
  have hw2 : ((w : Rat)) ≠ 0 := by exact_mod_cast hw
  have hh2 : ((h : Rat)) ≠ 0 := by exact_mod_cast hh
  simp [calibrateCommand, pydiv, hw2, hh2]

/-- Witness for C3: the general configure equation at concrete inputs. -/
theorem calibrateCommand_configure_witness :
    calibrateCommand defaultCalibrationRef (2, 3, 4, 5) (some 6) (some 7) (some 8) (some 9)
      = CmdOutcome.ok ⟨⟨((2 : Int) : Rat), ((3 : Int) : Rat)⟩, ⟨6, 7⟩,
          ⟨(8 - 6) / ((4 : Int) : Rat), (9 - 7) / ((5 : Int) : Rat)⟩⟩ :=
  (calibrateCommand_configure defaultCalibrationRef 2 3 4 5 6 7 8 9
    (by decide) (by decide)).1

/-- Claim C8: with the default calibration state the transform is the
identity on every point. -/
theorem calibrateXY_default_identity (pt : Point) (ref : CalibrationRef) :
    calibrateXY defaultCalibrationRef pt ref = pt := by
  cases pt with
  | mk px py => simp [calibrateXY, defaultCalibrationRef]

/-- Claim C10: the result of `calibrateXY` is independent of its second
argument `ref`, which the body never reads; it depends only on the point and
the module-level calibration state. -/
theorem calibrateXY_ref_independent
    (cal : CalibrationRef) (pt : Point) (r1 r2 : CalibrationRef) :
    calibrateXY cal pt r1 = calibrateXY cal pt r2 := rfl

/-- Helper: membership in the index-pair enumeration `(j, i)` for `j < i < n`. -/
theorem pairEnum_mem (n : Nat) (p : Nat × Nat) :
    p ∈ ((List.range n).flatMap fun i => (List.range i).map fun j => (j, i))
      ↔ p.1 < p.2 ∧ p.2 < n := by
  obtain ⟨a, b⟩ := p
  simp only [List.mem_flatMap, List.mem_map, List.mem_range]
  constructor
  · rintro ⟨i, hi, j, hj, heq⟩
    injection heq with e1 e2
    subst e1; subst e2
    exact ⟨hj, hi⟩
  · rintro ⟨h1, h2⟩
    exact ⟨b, h2, a, h1, rfl⟩

/-- Helper: the index-pair enumeration has no duplicates. -/
theorem pairEnum_nodup (n : Nat) :
    ((List.range n).flatMap fun i => (List.range i).map fun j => (j, i)).Nodup := by
  induction n with
  | zero => simp
  | succ m ih =>
    rw [List.range_succ, List.flatMap_append]
    refine List.Nodup.append ih ?_ ?_
    · simp only [List.flatMap_cons, List.flatMap_nil, List.append_nil]
      exact (List.nodup_range m).map fun a b h => by injection h
    · intro p hp hq
      simp only [List.flatMap_cons, List.flatMap_nil, List.append_nil, List.mem_map,
        List.mem_range] at hq
      obtain ⟨j, hj, rfl⟩ := hq
      have := (pairEnum_mem m (j, m)).mp hp
      omega

/-- Helper: the printed labels are exactly the enumeration of `(j, i)` with
`j < i` ascending in `i` then in `j`. -/
theorem pairLabels_eq (cal : CalibrationRef) (boxes : List Box) :
    pairLabels cal boxes
      = (List.range boxes.length).flatMap fun i => (List.range i).map fun j => (j, i) := by
  have hlen : (realPoints cal boxes).length = boxes.length := by simp [realPoints]
  simp [pairLabels, distances, hlen, List.map_flatMap, List.map_map, Function.comp_def]

/-- Helper: the end-to-end two-track scenario of the spec: boxes
`(10,10,20,20)` and `(50,50,20,20)` under the default calibration have
centers `(20,20)` and `(60,60)`, and the single distance line is labelled
`(0, 1)` and carries `(60 - 20, 60 - 20) = (40, 40)`. -/
theorem distances_two_track_scenario :
    distances defaultCalibrationRef [(10, 10, 20, 20), (50, 50, 20, 20)]
      = [(0, 1, 40, 40)] := by
  have hf : Int.fdiv 20 2 = 10 := by decide
  have h : realPoints defaultCalibrationRef [(10, 10, 20, 20), (50, 50, 20, 20)]
      = [⟨20, 20⟩, ⟨60, 60⟩] := by
    norm_num [realPoints, boxCenter, calibrateXY, defaultCalibrationRef, hf]
  have h2 : List.range 2 = [0, 1] := by decide
  have h1 : List.range 1 = [0] := by decide
  have h0 : List.range 0 = [] := by decide
  simp [distances, h, h2, h1, h0]
  norm_num

/-- Claim C1 counterexample: in the end-to-end scenario with identity
calibration and tracks centered at `(20,20)` and `(60,60)`, the pair
`(0, 1)` carries `(40, 40)` (position 1 minus position 0), not the claimed
`(-40, -40)`. -/
theorem distances_sign_counterexample :
    distances defaultCalibrationRef [(10, 10, 20, 20), (50, 50, 20, 20)]
      = [(0, 1, 40, 40)]
    ∧ ((0, 1, (-40 : Rat), (-40 : Rat))
        ∈ distances defaultCalibrationRef [(10, 10, 20, 20), (50, 50, 20, 20)]) = False := by
  refine ⟨distances_two_track_scenario, eq_false ?_⟩
  rw [distances_two_track_scenario]
  intro hmem
  simp only [List.mem_singleton, Prod.mk.injEq] at hmem
  have : (-40 : Rat) = 40 := hmem.2.2.1
  norm_num at this

/-- Claim C1 as amended: the distance entry for the unordered pair `(i, j)`
with `i < j` carries `(truth_j.x - truth_i.x, truth_j.y - truth_i.y)`, the
position of the larger index minus the position of the smaller; in the
end-to-end scenario the pair `(0, 1)` carries `(40, 40)`. (Stated with `j`
the smaller and `i` the larger index, matching the printed label order.) -/
theorem distances_delta (cal : CalibrationRef) (boxes : List Box) (i j : Nat)
    (hj : j < i) (hi : i < boxes.length) :
    (j, i,
      ((realPoints cal boxes).getD i ⟨0, 0⟩).x - ((realPoints cal boxes).getD j ⟨0, 0⟩).x,
      ((realPoints cal boxes).getD i ⟨0, 0⟩).y - ((realPoints cal boxes).getD j ⟨0, 0⟩).y)
      ∈ distances cal boxes
    ∧ distances defaultCalibrationRef [(10, 10, 20, 20), (50, 50, 20, 20)]
      = [(0, 1, 40, 40)] := by
  constructor
  · have hlen : (realPoints cal boxes).length = boxes.length := by simp [realPoints]
    simp only [distances, List.mem_flatMap, List.mem_map, List.mem_range]
    exact ⟨i, by omega, j, hj, rfl⟩
  · exact distances_two_track_scenario

/-- Witness for the amended C1 at the concrete two-track scenario. -/
theorem distances_delta_witness :
    (0, 1,
      ((realPoints defaultCalibrationRef [(10, 10, 20, 20), (50, 50, 20, 20)]).getD 1 ⟨0, 0⟩).x
        - ((realPoints defaultCalibrationRef [(10, 10, 20, 20), (50, 50, 20, 20)]).getD 0 ⟨0, 0⟩).x,
      ((realPoints defaultCalibrationRef [(10, 10, 20, 20), (50, 50, 20, 20)]).getD 1 ⟨0, 0⟩).y
        - ((realPoints defaultCalibrationRef [(10, 10, 20, 20), (50, 50, 20, 20)]).getD 0 ⟨0, 0⟩).y)
      ∈ distances defaultCalibrationRef [(10, 10, 20, 20), (50, 50, 20, 20)] :=
  (distances_delta defaultCalibrationRef [(10, 10, 20, 20), (50, 50, 20, 20)] 1 0
    (by decide) (by decide)).1

/-- Claim C6: each position comes from the box center `(x + w//2, y + h//2)`
(floor division on width and height) put through the calibration transform,
in the same order as the returned boxes; the box `(10,10,20,20)` has center
`(20, 20)` and under identity calibration yields position `(0, 20, 20)`. -/
theorem positions_boxCenters (cal : CalibrationRef) (boxes : List Box) :
    realPoints cal boxes = boxes.map (fun b =>
      calibrateXY cal ⟨((b.1 + Int.fdiv b.2.2.1 2 : Int) : Rat),
                      ((b.2.1 + Int.fdiv b.2.2.2 2 : Int) : Rat)⟩ cal)
    ∧ boxCenter (10, 10, 20, 20) = (20, 20)
    ∧ positions defaultCalibrationRef [(10, 10, 20, 20)] = [(0, 20, 20)] := by
  refine ⟨rfl, by decide, ?_⟩
  have hf : Int.fdiv 20 2 = 10 := by decide
  have h : realPoints defaultCalibrationRef [(10, 10, 20, 20)] = [⟨20, 20⟩] := by
    norm_num [realPoints, boxCenter, calibrateXY, defaultCalibrationRef, hf]
  simp [positions, h]

/-- Claim C7 counterexample: with four tracks the distance lines are printed
grouped by the larger index, i.e. `(0,1),(0,2),(1,2),(0,3),(1,3),(2,3)`, not
in the claimed ascending-smaller-then-larger order
`(0,1),(0,2),(0,3),(1,2),(1,3),(2,3)`. -/
theorem distances_order_counterexample :
    pairLabels defaultCalibrationRef [(1, 2, 3, 4), (1, 2, 3, 4), (1, 2, 3, 4), (1, 2, 3, 4)]
      = [(0, 1), (0, 2), (1, 2), (0, 3), (1, 3), (2, 3)]
    ∧ (pairLabels defaultCalibrationRef [(1, 2, 3, 4), (1, 2, 3, 4), (1, 2, 3, 4), (1, 2, 3, 4)]
        = [(0, 1), (0, 2), (0, 3), (1, 2), (1, 3), (2, 3)]) = False := by
  have h4 : List.range 4 = [0, 1, 2, 3] := by decide
  have h3 : List.range 3 = [0, 1, 2] := by decide
  have h2 : List.range 2 = [0, 1] := by decide
  have h1 : List.range 1 = [0] := by decide
  have h0 : List.range 0 = [] := by decide
  have hlab : pairLabels defaultCalibrationRef
      [(1, 2, 3, 4), (1, 2, 3, 4), (1, 2, 3, 4), (1, 2, 3, 4)]
      = [(0, 1), (0, 2), (1, 2), (0, 3), (1, 3), (2, 3)] := by
    rw [pairLabels_eq]
    simp [h4, h3, h2, h1, h0]
  refine ⟨hlab, eq_false ?_⟩
  rw [hlab]
  intro hmem
  exact absurd hmem (by decide)

/-- Claim C7 as amended: the distance lines carry exactly the unordered pairs
`(i, j)` with `i < j` over the positions, each exactly once and labelled with
the smaller index first, but they are enumerated ascending in the larger
index and then in the smaller one: for four tracks the order is
`(0,1),(0,2),(1,2),(0,3),(1,3),(2,3)`. -/
theorem distances_pairs_once (cal : CalibrationRef) (boxes : List Box) :
    (pairLabels cal boxes).Nodup
    ∧ (∀ p : Nat × Nat, p ∈ pairLabels cal boxes ↔ p.1 < p.2 ∧ p.2 < boxes.length)
    ∧ pairLabels defaultCalibrationRef [(1, 2, 3, 4), (1, 2, 3, 4), (1, 2, 3, 4), (1, 2, 3, 4)]
      = [(0, 1), (0, 2), (1, 2), (0, 3), (1, 3), (2, 3)] := by
  refine ⟨?_, ?_, ?_⟩
  · rw [pairLabels_eq]
    exact pairEnum_nodup boxes.length
  · intro p
    rw [pairLabels_eq]
    exact pairEnum_mem boxes.length p
  · rw [pairLabels_eq]
    have h4 : List.range 4 = [0, 1, 2, 3] := by decide
    have h3 : List.range 3 = [0, 1, 2] := by decide
    have h2 : List.range 2 = [0, 1] := by decide
    have h1 : List.range 1 = [0] := by decide
    have h0 : List.range 0 = [] := by decide
    simp [h4, h3, h2, h1, h0]

/-- Witness for the amended C7 at a concrete two-track input. -/
theorem distances_pairs_once_witness :
    (pairLabels defaultCalibrationRef [(1, 2, 3, 4), (5, 6, 7, 8)]).Nodup
    ∧ ((0, 1) ∈ pairLabels defaultCalibrationRef [(1, 2, 3, 4), (5, 6, 7, 8)]
        ↔ 0 < 1 ∧ 1 < ([(1, 2, 3, 4), (5, 6, 7, 8)] : List Box).length) :=
  ⟨(distances_pairs_once defaultCalibrationRef [(1, 2, 3, 4), (5, 6, 7, 8)]).1,
   (distances_pairs_once defaultCalibrationRef [(1, 2, 3, 4), (5, 6, 7, 8)]).2.1 (0, 1)⟩

/-- Claim C4 counterexample: with key `c`, rectangle corner `(3, 4)`, parsed
inputs 1 and 2 for the first corner and a parse failure on the third prompt,
the session crashes (it does not continue) and the calibration reference
point has already been overwritten, so the calibrate command is not atomic
on error. -/
theorem calibrateCommand_parse_counterexample :
    calibrateCommand defaultCalibrationRef (3, 4, 5, 5) (some 1) (some 2) none none
      = CmdOutcome.crash ⟨⟨3, 4⟩, ⟨1, 2⟩, ⟨1, 1⟩⟩
    ∧ ((⟨⟨3, 4⟩, ⟨1, 2⟩, ⟨1, 1⟩⟩ : CalibrationRef) = defaultCalibrationRef) = False := by
  constructor
  · norm_num [calibrateCommand, defaultCalibrationRef]
  · refine eq_false ?_
    intro hcontra
    rw [defaultCalibrationRef] at hcontra
    injection hcontra with h1 h2 h3
    injection h1 with hx hy
    norm_num at hx
/-- Claim C4 as amended: a parse failure aborts the whole session, not just
the calibration attempt. A failure on the first or second prompt leaves the
calibration state unchanged at the crash; a failure on the third or fourth
prompt crashes with the reference pixel and truth corners already
overwritten, while the scale is still the old one. Track data is never
touched by the calibrate branch. -/
theorem calibrateCommand_parse_failure (cal : CalibrationRef) (cb : Box)
    (x0 y0 x1 y1 : Option Rat) :
    ((x0 = none ∨ y0 = none) →
      calibrateCommand cal cb x0 y0 x1 y1 = CmdOutcome.crash cal)
    ∧ (∀ a b : Rat, x0 = some a → y0 = some b → (x1 = none ∨ y1 = none) →
        calibrateCommand cal cb x0 y0 x1 y1
          = CmdOutcome.crash ⟨⟨(cb.1 : Rat), (cb.2.1 : Rat)⟩, ⟨a, b⟩, cal.scale⟩) := by
  constructor
  · rintro (rfl | rfl)
    · rfl
    · cases x0 <;> rfl
  · rintro a b rfl rfl (rfl | rfl)
    · rfl
    · cases x1 <;> rfl

/-- Witness for the amended C4: a failing first prompt crashes with the
calibration state untouched. -/
theorem calibrateCommand_parse_failure_witness :
    calibrateCommand defaultCalibrationRef (3, 4, 5, 5) none (some 1) (some 2) (some 3)
      = CmdOutcome.crash defaultCalibrationRef :=
  (calibrateCommand_parse_failure defaultCalibrationRef (3, 4, 5, 5)
    none (some 1) (some 2) (some 3)).1 (Or.inl rfl)

/-- Claim C5 counterexample: a zero-width calibration rectangle is not
rejected before the transform is configured: the command still overwrites
the reference corner and then crashes on the division by the zero width
(an uncaught ZeroDivisionError), instead of leaving the state unchanged. -/
theorem calibrateCommand_degenerate_counterexample :
    calibrateCommand defaultCalibrationRef (2, 3, 0, 10) (some 5) (some 6) (some 7) (some 8)
      = CmdOutcome.crash ⟨⟨2, 3⟩, ⟨5, 6⟩, ⟨1, 1⟩⟩
    ∧ ((⟨⟨2, 3⟩, ⟨5, 6⟩, ⟨1, 1⟩⟩ : CalibrationRef) = defaultCalibrationRef) = False := by
  constructor
  · norm_num [calibrateCommand, pydiv, defaultCalibrationRef]
  · refine eq_false ?_
    intro hcontra
    rw [defaultCalibrationRef] at hcontra
    injection hcontra with h1 h2 h3
    injection h1 with hx hy
    norm_num at hx

/-- Claim C5 as amended: the code performs no degeneracy check; with a
zero-width or zero-height rectangle and four parsed inputs the calibrate
command reaches the scale computation, whose division by zero crashes the
session after the reference corner has already been overwritten. -/
theorem calibrateCommand_degenerate_crash (cal : CalibrationRef)
    (x y w h : Int) (a b c d : Rat) (hdeg : w = 0 ∨ h = 0) :
    calibrateCommand cal (x, y, w, h) (some a) (some b) (some c) (some d)
      = CmdOutcome.crash ⟨⟨(x : Rat), (y : Rat)⟩, ⟨a, b⟩, cal.scale⟩ := by
  rcases hdeg with rfl | rfl
  · simp [calibrateCommand, pydiv]
  · rcases eq_or_ne ((w : Rat)) 0 with h0 | h0 <;>
      simp [calibrateCommand, pydiv, h0]

/-- Witness for the amended C5 at a concrete zero-width rectangle. -/
theorem calibrateCommand_degenerate_crash_witness :
    calibrateCommand defaultCalibrationRef (2, 3, 0, 10) (some 5) (some 6) (some 7) (some 8)
      = CmdOutcome.crash ⟨⟨((2 : Int) : Rat), ((3 : Int) : Rat)⟩, ⟨5, 6⟩,
          defaultCalibrationRef.scale⟩ :=
  calibrateCommand_degenerate_crash defaultCalibrationRef 2 3 0 10 5 6 7 8 (Or.inl rfl)

/-- Helper: any surviving loop iteration keeps `initBox` set once it is set
and never decreases the tracker count. -/
theorem videoIteration_mono (st : SessionState) (e : Event) (st2 : SessionState)
    (h : (videoIteration st e).1 = some st2) :
    (st.initBox.isSome = true → st2.initBox.isSome = true)
    ∧ st.numTracks ≤ st2.numTracks := by
  obtain ⟨suc, bxs, k⟩ := e
  cases k with
  | s roi =>
    simp only [videoIteration, Option.some.injEq] at h
    subst h
    simp
  | c cb x0 y0 x1 y1 =>
    simp only [videoIteration] at h
    cases hcc : calibrateCommand st.cal cb x0 y0 x1 y1 with
    | ok cal2 =>
      rw [hcc] at h
      simp only [Option.some.injEq] at h
      subst h
      simp
    | crash c2 =>
      rw [hcc] at h
      simp at h
  | q => simp [videoIteration] at h
  | other =>
    simp only [videoIteration, Option.some.injEq] at h
    subst h
    simp

/-- Helper: any surviving loop iteration preserves the invariant that a
region has been selected exactly when at least one tracker exists. -/
theorem videoIteration_preserves_inv (st : SessionState) (e : Event) (st2 : SessionState)
    (h : (videoIteration st e).1 = some st2)
    (hinv : st.initBox.isSome = true ↔ 0 < st.numTracks) :
    st2.initBox.isSome = true ↔ 0 < st2.numTracks := by
  obtain ⟨suc, bxs, k⟩ := e
  cases k with
  | s roi =>
    simp only [videoIteration, Option.some.injEq] at h
    subst h
    simp
  | c cb x0 y0 x1 y1 =>
    simp only [videoIteration] at h
    cases hcc : calibrateCommand st.cal cb x0 y0 x1 y1 with
    | ok cal2 =>
      rw [hcc] at h
      simp only [Option.some.injEq] at h
      subst h
      simpa using hinv
    | crash c2 =>
      rw [hcc] at h
      simp at h
  | q => simp [videoIteration] at h
  | other =>
    simp only [videoIteration, Option.some.injEq] at h
    subst h
    exact hinv

/-- Helper: the invariant holds in every state reachable from a state that
satisfies it. -/
theorem runSession_inv (es : List Event) : ∀ st st2 : SessionState,
    runSession st es = some st2 → (st.initBox.isSome = true ↔ 0 < st.numTracks) →
    (st2.initBox.isSome = true ↔ 0 < st2.numTracks) := by
  induction es with
  | nil =>
    intro st st2 h hinv
    simp only [runSession, Option.some.injEq] at h
    subst h
    exact hinv
  | cons e es ih =>
    intro st st2 h hinv
    simp only [runSession] at h
    cases hvi : (videoIteration st e).1 with
    | none => rw [hvi] at h; cases h
    | some st1 =>
      rw [hvi] at h
      exact ih st1 st2 h (videoIteration_preserves_inv st e st1 hvi hinv)

/-- Claim C9: the session is a two-state machine. In every reachable state a
region is selected exactly when at least one track exists; a frame produces
a report exactly when a region is selected (Tracking) and no report
otherwise (Idle); every surviving iteration keeps the session in Tracking
once it is there and never removes tracks; and an add-region key always
moves the session to Tracking. -/
theorem session_two_state (es : List Event) (st : SessionState) (e : Event) (roi : Box)
    (hreach : runSession initialSession es = some st) :
    (st.initBox.isSome = true ↔ 0 < st.numTracks)
    ∧ (videoIteration st e).2
        = (if st.initBox.isSome then some (mkReport st.cal e.success e.boxes) else none)
    ∧ (∀ st2, (videoIteration st e).1 = some st2 →
        (st.initBox.isSome = true → st2.initBox.isSome = true)
        ∧ st.numTracks ≤ st2.numTracks)
    ∧ (∀ st2, (videoIteration st ⟨e.success, e.boxes, Key.s roi⟩).1 = some st2 →
        st2.initBox.isSome = true) := by
  refine ⟨runSession_inv es initialSession st hreach (by simp [initialSession]),
    rfl, fun st2 h => videoIteration_mono st e st2 h, fun st2 h => ?_⟩
  simp only [videoIteration, Option.some.injEq] at h
  subst h
  simp

/-- Witness for C9: the initial state (reachable by the empty trace)
satisfies the invariant, and pressing `s` from it moves to Tracking. -/
theorem session_two_state_witness :
    (initialSession.initBox.isSome = true ↔ 0 < initialSession.numTracks)
    ∧ ∀ st2, (videoIteration initialSession ⟨true, [], Key.s (1, 2, 3, 4)⟩).1 = some st2 →
        st2.initBox.isSome = true :=
  ⟨(session_two_state [] initialSession ⟨true, [], Key.other⟩ (1, 2, 3, 4) rfl).1,
   (session_two_state [] initialSession ⟨true, [], Key.other⟩ (1, 2, 3, 4) rfl).2.2.2⟩

end MotionCapture
